import Mathlib

/-!
Verification of the Bird-Strike Mitigation Autonomy Service (src/app.py).

Shallow embedding notes:
* Python `float` arithmetic is modelled as exact real arithmetic (`ℝ`);
  `x ** 0.5` on a sum of squares is `Real.sqrt`.  This makes the kinematic
  definitions `noncomputable`; concrete evaluations are carried out with
  `norm_num` together with `Real.sqrt_sq`.
* `datetime` timestamps only flow into the canonical serialization, where
  `json.dumps(..., default=str)` renders them as fixed strings; they are
  modelled directly as their rendered `String` form.
* The parts of the pipeline that Lean cannot replay exactly — the textual
  rendering of a float (`repr`/`%.1f`), JSON string escaping, and the SHA-256
  digest — are abstracted as a `Renderers` parameter; every theorem below is
  proved for an arbitrary `Renderers` value, so nothing depends on a
  particular rendering.
* `uuid.uuid4()` is nondeterministic; `evaluate_risk` therefore receives the
  fresh `decision_id` as an explicit argument.
* The pydantic field validators (timestamp freshness, altitude floor,
  probability ranges) run at the service boundary before the engine; they are
  not part of the engine functions embedded here.
-/

/-- `ENGINE_VERSION` constant of app.py. -/
def ENGINE_VERSION : String := "0.2.0"

/-- `Coord3D`: 3D coordinate (meters), app.py lines 76-80. -/
structure Coord3D where
  x : ℝ
  y : ℝ
  z : ℝ

/-- `Velocity3D`: 3D velocity (m/s), app.py lines 82-86. -/
structure Velocity3D where
  vx : ℝ
  vy : ℝ
  vz : ℝ

/-- `BirdDetection`, app.py lines 88-101 (timestamp kept as its rendered string). -/
structure BirdDetection where
  id : String
  position : Coord3D
  velocity : Velocity3D
  timestamp : String
  confidence : ℝ

/-- `AircraftState`, app.py lines 111-118. -/
structure AircraftState where
  callsign : String
  position : Coord3D
  velocity : Velocity3D
  heading_deg : ℝ
  altitude_agl_m : ℝ
  timestamp : String

/-- `RiskLevel` enum, app.py lines 126-131. -/
inductive RiskLevel where
  | NONE
  | LOW
  | MEDIUM
  | HIGH
  | CRITICAL
deriving DecidableEq, Repr

/-- `ActionType` enum, app.py lines 133-142. -/
inductive ActionType where
  | MAINTAIN
  | SLOW_DOWN
  | CLIMB
  | DESCEND
  | TURN_LEFT
  | TURN_RIGHT
  | HOLD
  | ABORT_MISSION
deriving DecidableEq, Repr

/-- `RiskConfig`, app.py lines 38-62 (fields only; defaults in `RISK_CONFIG`). -/
structure RiskConfig where
  version : String
  distance_threshold_m : ℝ
  min_ttc_s : ℝ
  max_ttc_s : ℝ
  ttc_low_threshold_s : ℝ
  ttc_medium_threshold_s : ℝ
  ttc_high_threshold_s : ℝ
  prob_presence_only : ℝ
  prob_low : ℝ
  prob_medium : ℝ
  prob_high : ℝ
  prob_critical : ℝ

/-- The module-level `RISK_CONFIG = RiskConfig()` with the defaults of app.py. -/
def RISK_CONFIG : RiskConfig :=
  { version := "2025-11-30-a"
    distance_threshold_m := 500.0
    min_ttc_s := 5.0
    max_ttc_s := 120.0
    ttc_low_threshold_s := 60.0
    ttc_medium_threshold_s := 30.0
    ttc_high_threshold_s := 10.0
    prob_presence_only := 0.05
    prob_low := 0.10
    prob_medium := 0.30
    prob_high := 0.60
    prob_critical := 0.80 }

/-- `RiskAssessment` output value, app.py lines 144-156. -/
structure RiskAssessment where
  risk_level : RiskLevel
  collision_probability : ℝ
  time_to_conflict_s : Option ℝ
  most_threatening_bird_id : Option String
  rationale : String
  decision_id : String
  input_hash : String
  engine_version : String
  config_version : String

/-- `ActionRecommendation` output value, app.py lines 158-163. -/
structure ActionRecommendation where
  action : ActionType
  urgency : RiskLevel
  rationale : String
  requires_human_approval : Bool

/-- `RiskQuery` input aggregate, app.py lines 165-168. -/
structure RiskQuery where
  aircraft : AircraftState
  birds : List BirdDetection

/-- The environment-supplied pieces Lean cannot replay bit-exactly:
float rendering in JSON, JSON string escaping, SHA-256, and the `%.1f`
formatting used in the rationale.  All results hold for arbitrary values. -/
structure Renderers where
  jsonNum : ℝ → String
  jsonStr : String → String
  sha256hex : String → String
  fmt1 : ℝ → String

/-- JSON object for a `Coord3D` as `json.dumps(..., sort_keys=True)` emits it
(keys x, y, z in sorted order, default separators). -/
def jsonCoord (r : Renderers) (p : Coord3D) : String :=
  "\x7b\"x\": " ++ r.jsonNum p.x ++ ", \"y\": " ++ r.jsonNum p.y ++
    ", \"z\": " ++ r.jsonNum p.z ++ "\x7d"

/-- JSON object for a `Velocity3D` (keys vx, vy, vz in sorted order). -/
def jsonVel (r : Renderers) (v : Velocity3D) : String :=
  "\x7b\"vx\": " ++ r.jsonNum v.vx ++ ", \"vy\": " ++ r.jsonNum v.vy ++
    ", \"vz\": " ++ r.jsonNum v.vz ++ "\x7d"

/-- JSON object for a `BirdDetection` (keys confidence, id, position,
timestamp, velocity in sorted order; timestamp rendered via `default=str`). -/
def jsonBird (r : Renderers) (b : BirdDetection) : String :=
  "\x7b\"confidence\": " ++ r.jsonNum b.confidence ++
    ", \"id\": " ++ r.jsonStr b.id ++
    ", \"position\": " ++ jsonCoord r b.position ++
    ", \"timestamp\": " ++ r.jsonStr b.timestamp ++
    ", \"velocity\": " ++ jsonVel r b.velocity ++ "\x7d"

/-- JSON object for an `AircraftState` (keys altitude_agl_m, callsign,
heading_deg, position, timestamp, velocity in sorted order). -/
def jsonAircraft (r : Renderers) (a : AircraftState) : String :=
  "\x7b\"altitude_agl_m\": " ++ r.jsonNum a.altitude_agl_m ++
    ", \"callsign\": " ++ r.jsonStr a.callsign ++
    ", \"heading_deg\": " ++ r.jsonNum a.heading_deg ++
    ", \"position\": " ++ jsonCoord r a.position ++
    ", \"timestamp\": " ++ r.jsonStr a.timestamp ++
    ", \"velocity\": " ++ jsonVel r a.velocity ++ "\x7d"

/-- Canonical serialization of a `RiskQuery`:
`json.dumps(query.dict(), sort_keys=True, default=str)` — keys aircraft,
birds in sorted order, bird list order preserved. -/
def canonicalJson (r : Renderers) (q : RiskQuery) : String :=
  "\x7b\"aircraft\": " ++ jsonAircraft r q.aircraft ++
    ", \"birds\": [" ++ String.intercalate ", " (q.birds.map (jsonBird r)) ++
    "]\x7d"

/-- `compute_input_hash`, app.py lines 183-193: SHA-256 hex digest of the
canonical serialization. -/
def compute_input_hash (r : Renderers) (query : RiskQuery) : String :=
  r.sha256hex (canonicalJson r query)

/-- `relative_speed` of app.py lines 211-215: Euclidean norm of the
component-wise relative velocity (`** 0.5` on a sum of squares). -/
noncomputable def relative_speed (aircraft : AircraftState) (bird : BirdDetection) : ℝ :=
  Real.sqrt ((aircraft.velocity.vx - bird.velocity.vx) ^ 2 +
    (aircraft.velocity.vy - bird.velocity.vy) ^ 2 +
    (aircraft.velocity.vz - bird.velocity.vz) ^ 2)

/-- `distance` of app.py lines 219-222: Euclidean distance between the
aircraft and bird positions. -/
noncomputable def bird_distance (aircraft : AircraftState) (bird : BirdDetection) : ℝ :=
  Real.sqrt ((aircraft.position.x - bird.position.x) ^ 2 +
    (aircraft.position.y - bird.position.y) ^ 2 +
    (aircraft.position.z - bird.position.z) ^ 2)

/-- `estimate_time_to_conflict`, app.py lines 195-233. -/
noncomputable def estimate_time_to_conflict (aircraft : AircraftState)
    (bird : BirdDetection) (config : RiskConfig) : Option ℝ :=
  if relative_speed aircraft bird < 1e-3 then none
  else if bird_distance aircraft bird > config.distance_threshold_m then none
  else
    some (max config.min_ttc_s
      (min config.max_ttc_s (bird_distance aircraft bird / relative_speed aircraft bird)))

/-- The TTC → risk band mapping of app.py lines 308-320: thresholds tested in
the order low, medium, high with `≥`, first match wins, else CRITICAL. -/
noncomputable def bandRisk (config : RiskConfig) (ttc : ℝ) : RiskLevel × ℝ :=
  if ttc ≥ config.ttc_low_threshold_s then (RiskLevel.LOW, config.prob_low)
  else if ttc ≥ config.ttc_medium_threshold_s then (RiskLevel.MEDIUM, config.prob_medium)
  else if ttc ≥ config.ttc_high_threshold_s then (RiskLevel.HIGH, config.prob_high)
  else (RiskLevel.CRITICAL, config.prob_critical)

/-- The bird loop of app.py lines 271-281: track the minimum valid TTC and its
owning bird; `if best_ttc is None or ttc < best_ttc` (ties keep the earlier). -/
noncomputable def bestConflict (aircraft : AircraftState) (config : RiskConfig) :
    List BirdDetection → Option (ℝ × BirdDetection) → Option (ℝ × BirdDetection)
  | [], best => best
  | b :: rest, best =>
    match estimate_time_to_conflict aircraft b config with
    | none => bestConflict aircraft config rest best
    | some ttc =>
      match best with
      | none => bestConflict aircraft config rest (some (ttc, b))
      | some (best_ttc, best_bird) =>
        if ttc < best_ttc then bestConflict aircraft config rest (some (ttc, b))
        else bestConflict aircraft config rest (some (best_ttc, best_bird))

/-- `evaluate_risk`, app.py lines 235-349.  The fresh `uuid.uuid4()` decision
id is passed in explicitly; the renderers stand for the logging/serialization
environment. -/
noncomputable def evaluate_risk (r : Renderers) (decision_id : String)
    (query : RiskQuery) (config : RiskConfig) : RiskAssessment :=
  let input_hash := compute_input_hash r query
  match query.birds with
  | [] =>
    { risk_level := RiskLevel.NONE
      collision_probability := 0.0
      time_to_conflict_s := none
      most_threatening_bird_id := none
      rationale := "No birds in current surveillance volume."
      decision_id := decision_id
      input_hash := input_hash
      engine_version := ENGINE_VERSION
      config_version := config.version }
  | _ :: _ =>
    match bestConflict query.aircraft config query.birds none with
    | none =>
      { risk_level := RiskLevel.LOW
        collision_probability := config.prob_presence_only
        time_to_conflict_s := none
        most_threatening_bird_id := none
        rationale := "Birds present but no projected near-term conflicts within configured thresholds."
        decision_id := decision_id
        input_hash := input_hash
        engine_version := ENGINE_VERSION
        config_version := config.version }
    | some (best_ttc, best_bird) =>
      { risk_level := (bandRisk config best_ttc).1
        collision_probability := (bandRisk config best_ttc).2
        time_to_conflict_s := some best_ttc
        most_threatening_bird_id := some best_bird.id
        rationale := "Closest projected conflict with bird " ++ best_bird.id ++
          " in ~" ++ r.fmt1 best_ttc ++
          "s using linear relative motion and heuristic TTC risk bands."
        decision_id := decision_id
        input_hash := input_hash
        engine_version := ENGINE_VERSION
        config_version := config.version }

/-- `plan_action`, app.py lines 351-390. -/
def plan_action (assessment : RiskAssessment) : ActionRecommendation :=
  if assessment.risk_level = RiskLevel.NONE ∨ assessment.risk_level = RiskLevel.LOW then
    { action := ActionType.MAINTAIN
      urgency := assessment.risk_level
      rationale := "Risk is NONE/LOW. Maintain current trajectory with monitoring."
      requires_human_approval := false }
  else if assessment.risk_level = RiskLevel.MEDIUM then
    { action := ActionType.SLOW_DOWN
      urgency := RiskLevel.MEDIUM
      rationale := "Medium near-term risk. Recommend speed reduction and altitude review."
      requires_human_approval := true }
  else if assessment.risk_level = RiskLevel.HIGH then
    { action := ActionType.TURN_RIGHT
      urgency := RiskLevel.HIGH
      rationale := "High risk of conflict. Recommend lateral deviation away from threat vector."
      requires_human_approval := true }
  else
    { action := ActionType.ABORT_MISSION
      urgency := RiskLevel.CRITICAL
      rationale := "Critical near-term conflict predicted. Recommend immediate abort / escape."
      requires_human_approval := true }

/-- The valid TTCs produced by the bird list, in iteration order. -/
noncomputable def validTTCs (aircraft : AircraftState) (config : RiskConfig)
    (birds : List BirdDetection) : List ℝ :=
  birds.filterMap (fun b => estimate_time_to_conflict aircraft b config)

/-! Concrete inputs used for scenario evaluations, witnesses and
counterexamples. -/

/-- A concrete `Renderers` instance (any instance works for the theorems on
the engine fields that do not involve the hash or rationale text). -/
def r0 : Renderers :=
  { jsonNum := fun _ => ""
    jsonStr := fun s => s
    sha256hex := fun s => s
    fmt1 := fun _ => "" }

/-- Aircraft of end-to-end scenario 1: position (0,0,100), velocity (50,0,0). -/
def ac0 : AircraftState :=
  { callsign := "UAV-7"
    position := { x := 0, y := 0, z := 100 }
    velocity := { vx := 50, vy := 0, vz := 0 }
    heading_deg := 90
    altitude_agl_m := 100
    timestamp := "2025-11-30 12:00:00" }

/-- Bird of end-to-end scenario 1: position (400,0,100), stationary. -/
def bA : BirdDetection :=
  { id := "A"
    position := { x := 400, y := 0, z := 100 }
    velocity := { vx := 0, vy := 0, vz := 0 }
    timestamp := "2025-11-30 12:00:00"
    confidence := 0.9 }

/-- A second bird identical to `bA` except for its id ("B"): ties with `bA`
for the minimum TTC. -/
def bB : BirdDetection :=
  { id := "B"
    position := { x := 400, y := 0, z := 100 }
    velocity := { vx := 0, vy := 0, vz := 0 }
    timestamp := "2025-11-30 12:00:00"
    confidence := 0.9 }

/-- Bird of end-to-end scenario 2: position (2000,0,100), stationary —
outside the 500 m default distance threshold. -/
def b2k : BirdDetection :=
  { id := "FAR"
    position := { x := 2000, y := 0, z := 100 }
    velocity := { vx := 0, vy := 0, vz := 0 }
    timestamp := "2025-11-30 12:00:00"
    confidence := 0.9 }

/-- A config with `min_ttc_s > max_ttc_s` (no ordering between the two clamp
bounds is imposed anywhere in app.py). -/
def cfgBad : RiskConfig :=
  { version := "bad"
    distance_threshold_m := 500.0
    min_ttc_s := 10.0
    max_ttc_s := 5.0
    ttc_low_threshold_s := 60.0
    ttc_medium_threshold_s := 30.0
    ttc_high_threshold_s := 10.0
    prob_presence_only := 0.05
    prob_low := 0.10
    prob_medium := 0.30
    prob_high := 0.60
    prob_critical := 0.80 }

/-- Aircraft for the clamp counterexample: at the origin, 1 m/s along x. -/
def acSlow : AircraftState :=
  { callsign := "SLOW"
    position := { x := 0, y := 0, z := 0 }
    velocity := { vx := 1, vy := 0, vz := 0 }
    heading_deg := 90
    altitude_agl_m := 50
    timestamp := "2025-11-30 12:00:00" }

/-- Bird for the clamp counterexample: 3 m ahead, stationary. -/
def bNear : BirdDetection :=
  { id := "NEAR"
    position := { x := 3, y := 0, z := 0 }
    velocity := { vx := 0, vy := 0, vz := 0 }
    timestamp := "2025-11-30 12:00:00"
    confidence := 1 }

/-- A concrete assessment with CRITICAL risk, for the planner witness. -/
def assess0 : RiskAssessment :=
  { risk_level := RiskLevel.CRITICAL
    collision_probability := 0.80
    time_to_conflict_s := some 8
    most_threatening_bird_id := some "A"
    rationale := "r"
    decision_id := "d"
    input_hash := "h"
    engine_version := ENGINE_VERSION
    config_version := "2025-11-30-a" }

/-! Helper lemmas. -/

/-- Evaluate a square root given an exact nonnegative root. -/
theorem sqrt_eval (x y : ℝ) (hy : 0 ≤ y) (h : y ^ 2 = x) : Real.sqrt x = y := by
  rw [← h, Real.sqrt_sq hy]

/-- `estimate_time_to_conflict` on inputs passing both gates. -/
theorem est_eval (a : AircraftState) (b : BirdDetection) (cfg : RiskConfig)
    (s dd : ℝ) (hs : relative_speed a b = s) (hd : bird_distance a b = dd)
    (h1 : ¬ s < 1e-3) (h2 : ¬ dd > cfg.distance_threshold_m) :
    estimate_time_to_conflict a b cfg =
      some (max cfg.min_ttc_s (min cfg.max_ttc_s (dd / s))) := by
  unfold estimate_time_to_conflict
  rw [hs, hd, if_neg h1, if_neg h2]

/-- `estimate_time_to_conflict` on inputs failing the distance gate. -/
theorem est_eval_far (a : AircraftState) (b : BirdDetection) (cfg : RiskConfig)
    (s dd : ℝ) (hs : relative_speed a b = s) (hd : bird_distance a b = dd)
    (h1 : ¬ s < 1e-3) (h2 : dd > cfg.distance_threshold_m) :
    estimate_time_to_conflict a b cfg = none := by
  unfold estimate_time_to_conflict
  rw [hs, hd, if_neg h1, if_pos h2]

theorem speed_ac0_bA : relative_speed ac0 bA = 50 := by
  simp only [relative_speed, ac0, bA]
  exact sqrt_eval _ 50 (by norm_num) (by norm_num)

theorem dist_ac0_bA : bird_distance ac0 bA = 400 := by
  simp only [bird_distance, ac0, bA]
  exact sqrt_eval _ 400 (by norm_num) (by norm_num)

theorem speed_ac0_bB : relative_speed ac0 bB = 50 := by
  simp only [relative_speed, ac0, bB]
  exact sqrt_eval _ 50 (by norm_num) (by norm_num)

theorem dist_ac0_bB : bird_distance ac0 bB = 400 := by
  simp only [bird_distance, ac0, bB]
  exact sqrt_eval _ 400 (by norm_num) (by norm_num)

theorem speed_ac0_b2k : relative_speed ac0 b2k = 50 := by
  simp only [relative_speed, ac0, b2k]
  exact sqrt_eval _ 50 (by norm_num) (by norm_num)

theorem dist_ac0_b2k : bird_distance ac0 b2k = 2000 := by
  simp only [bird_distance, ac0, b2k]
  exact sqrt_eval _ 2000 (by norm_num) (by norm_num)

theorem est_ac0_bA : estimate_time_to_conflict ac0 bA RISK_CONFIG = some 8 := by
  rw [est_eval ac0 bA RISK_CONFIG 50 400 speed_ac0_bA dist_ac0_bA
    (by norm_num) (by norm_num [RISK_CONFIG])]
  rw [show ((400 : ℝ) / 50) = 8 by norm_num]
  rw [min_eq_right (by norm_num [RISK_CONFIG]), max_eq_right (by norm_num [RISK_CONFIG])]

theorem est_ac0_bB : estimate_time_to_conflict ac0 bB RISK_CONFIG = some 8 := by
  rw [est_eval ac0 bB RISK_CONFIG 50 400 speed_ac0_bB dist_ac0_bB
    (by norm_num) (by norm_num [RISK_CONFIG])]
  rw [show ((400 : ℝ) / 50) = 8 by norm_num]
  rw [min_eq_right (by norm_num [RISK_CONFIG]), max_eq_right (by norm_num [RISK_CONFIG])]

theorem est_ac0_b2k : estimate_time_to_conflict ac0 b2k RISK_CONFIG = none :=
  est_eval_far ac0 b2k RISK_CONFIG 50 2000 speed_ac0_b2k dist_ac0_b2k
    (by norm_num) (by norm_num [RISK_CONFIG])

/-- The loop leaves the accumulator untouched when every bird is filtered out. -/
theorem bestConflict_all_none (a : AircraftState) (cfg : RiskConfig) :
    ∀ (bs : List BirdDetection), (∀ b ∈ bs, estimate_time_to_conflict a b cfg = none) →
      ∀ acc, bestConflict a cfg bs acc = acc := by
  intro bs
  induction bs with
  | nil => intro _ acc; rfl
  | cons b rest ih =>
    intro h acc
    have hb : estimate_time_to_conflict a b cfg = none := h b (by simp)
    simp only [bestConflict, hb]
    exact ih (fun x hx => h x (by simp [hx])) acc

/-- The loop returns `none` exactly when it started from `none` and no bird
produced a valid TTC. -/
theorem bestConflict_eq_none (a : AircraftState) (cfg : RiskConfig) :
    ∀ (bs : List BirdDetection) (acc : Option (ℝ × BirdDetection)),
      bestConflict a cfg bs acc = none ↔ acc = none ∧ validTTCs a cfg bs = [] := by
  intro bs
  induction bs with
  | nil => intro acc; simp [bestConflict, validTTCs]
  | cons b rest ih =>
    intro acc
    rcases h : estimate_time_to_conflict a b cfg with _ | t
    · simp only [bestConflict, h]
      rw [ih acc]
      simp [validTTCs, List.filterMap_cons, h]
    · rcases acc with _ | ⟨bt, bb⟩
      · simp only [bestConflict, h]
        rw [ih (some (t, b))]
        simp [validTTCs, List.filterMap_cons, h]
      · simp only [bestConflict, h]
        split_ifs with hlt
        · rw [ih (some (t, b))]
          simp [validTTCs, List.filterMap_cons, h]
        · rw [ih (some (bt, bb))]
          simp [validTTCs, List.filterMap_cons, h]

/-- Invariant of the bird loop, generalized over a non-empty accumulator:
either the accumulator survives (and is a lower bound of every later valid
TTC), or it is replaced by a strictly smaller valid TTC produced by the
earliest bird attaining the final value. -/
theorem bestConflict_min_first_acc (a : AircraftState) (cfg : RiskConfig) :
    ∀ (bs : List BirdDetection) (bt : ℝ) (bb : BirdDetection) (v : ℝ) (bird : BirdDetection),
      bestConflict a cfg bs (some (bt, bb)) = some (v, bird) →
        (v = bt ∧ bird = bb ∧ ∀ u ∈ validTTCs a cfg bs, bt ≤ u) ∨
        (v < bt ∧ estimate_time_to_conflict a bird cfg = some v ∧
          (∀ u ∈ validTTCs a cfg bs, v ≤ u) ∧
          ∃ (i : ℕ) (hi : i < bs.length), bs.get ⟨i, hi⟩ = bird ∧
            ∀ (j : ℕ) (hj : j < i),
              estimate_time_to_conflict a (bs.get ⟨j, hj.trans hi⟩) cfg ≠ some v) := by
  intro bs
  induction bs with
  | nil =>
    intro bt bb v bird h
    simp only [bestConflict, Option.some.injEq, Prod.mk.injEq] at h
    exact Or.inl ⟨h.1.symm, h.2.symm, by simp [validTTCs]⟩
  | cons b rest ih =>
    intro bt bb v bird h
    rcases hb : estimate_time_to_conflict a b cfg with _ | t
    · simp only [bestConflict, hb] at h
      rcases ih bt bb v bird h with hkeep | hrep
      · refine Or.inl ⟨hkeep.1, hkeep.2.1, ?_⟩
        intro u hu
        exact hkeep.2.2 u (by simpa [validTTCs, List.filterMap_cons, hb] using hu)
      · obtain ⟨hvt, hest, hmin, i, hi, hgi, hprev⟩ := hrep
        refine Or.inr ⟨hvt, hest, ?_, i + 1, Nat.succ_lt_succ hi, hgi, ?_⟩
        · intro u hu
          exact hmin u (by simpa [validTTCs, List.filterMap_cons, hb] using hu)
        · intro j hj
          cases j with
          | zero =>
            show estimate_time_to_conflict a b cfg ≠ some v
            simp [hb]
          | succ j' =>
            exact hprev j' (Nat.lt_of_succ_lt_succ hj)
    · simp only [bestConflict, hb] at h
      by_cases hlt : t < bt
      · rw [if_pos hlt] at h
        rcases ih t b v bird h with hkeep | hrep
        · obtain ⟨hv, hbd, hmin⟩ := hkeep
          subst hv; subst hbd
          refine Or.inr ⟨hlt, hb, ?_, 0, Nat.succ_pos _, rfl, ?_⟩
          · intro u hu
            rcases (by simpa [validTTCs, List.filterMap_cons, hb] using hu :
                u = v ∨ u ∈ validTTCs a cfg rest) with rfl | hu'
            · exact le_refl _
            · exact hmin u hu'
          · intro j hj
            exact absurd hj (Nat.not_lt_zero j)
        · obtain ⟨hvt, hest, hmin, i, hi, hgi, hprev⟩ := hrep
          refine Or.inr ⟨hvt.trans hlt, hest, ?_, i + 1, Nat.succ_lt_succ hi, hgi, ?_⟩
          · intro u hu
            rcases (by simpa [validTTCs, List.filterMap_cons, hb] using hu :
                u = t ∨ u ∈ validTTCs a cfg rest) with rfl | hu'
            · exact hvt.le
            · exact hmin u hu'
          · intro j hj
            cases j with
            | zero =>
              show estimate_time_to_conflict a b cfg ≠ some v
              rw [hb]
              simp only [ne_eq, Option.some.injEq]
              exact hvt.ne'
            | succ j' =>
              exact hprev j' (Nat.lt_of_succ_lt_succ hj)
      · rw [if_neg hlt] at h
        have hbtt : bt ≤ t := not_lt.mp hlt
        rcases ih bt bb v bird h with hkeep | hrep
        · obtain ⟨hv, hbd, hmin⟩ := hkeep
          refine Or.inl ⟨hv, hbd, ?_⟩
          intro u hu
          rcases (by simpa [validTTCs, List.filterMap_cons, hb] using hu :
              u = t ∨ u ∈ validTTCs a cfg rest) with rfl | hu'
          · exact hbtt
          · exact hmin u hu'
        · obtain ⟨hvt, hest, hmin, i, hi, hgi, hprev⟩ := hrep
          refine Or.inr ⟨hvt, hest, ?_, i + 1, Nat.succ_lt_succ hi, hgi, ?_⟩
          · intro u hu
            rcases (by simpa [validTTCs, List.filterMap_cons, hb] using hu :
                u = t ∨ u ∈ validTTCs a cfg rest) with rfl | hu'
            · exact (hvt.trans_le hbtt).le
            · exact hmin u hu'
          · intro j hj
            cases j with
            | zero =>
              show estimate_time_to_conflict a b cfg ≠ some v
              rw [hb]
              simp only [ne_eq, Option.some.injEq]
              exact (hvt.trans_le hbtt).ne'
            | succ j' =>
              exact hprev j' (Nat.lt_of_succ_lt_succ hj)

/-- Starting from an empty accumulator, the loop's result is a valid TTC of
the earliest bird attaining it, and a lower bound of every valid TTC. -/
theorem bestConflict_min_first (a : AircraftState) (cfg : RiskConfig) :
    ∀ (bs : List BirdDetection) (v : ℝ) (bird : BirdDetection),
      bestConflict a cfg bs none = some (v, bird) →
        estimate_time_to_conflict a bird cfg = some v ∧
        (∀ u ∈ validTTCs a cfg bs, v ≤ u) ∧
        ∃ (i : ℕ) (hi : i < bs.length), bs.get ⟨i, hi⟩ = bird ∧
          ∀ (j : ℕ) (hj : j < i),
            estimate_time_to_conflict a (bs.get ⟨j, hj.trans hi⟩) cfg ≠ some v := by
  intro bs
  induction bs with
  | nil =>
    intro v bird h
    simp [bestConflict] at h
  | cons b rest ih =>
    intro v bird h
    rcases hb : estimate_time_to_conflict a b cfg with _ | t
    · simp only [bestConflict, hb] at h
      obtain ⟨hest, hmin, i, hi, hgi, hprev⟩ := ih v bird h
      refine ⟨hest, ?_, i + 1, Nat.succ_lt_succ hi, hgi, ?_⟩
      · intro u hu
        exact hmin u (by simpa [validTTCs, List.filterMap_cons, hb] using hu)
      · intro j hj
        cases j with
        | zero =>
          show estimate_time_to_conflict a b cfg ≠ some v
          simp [hb]
        | succ j' =>
          exact hprev j' (Nat.lt_of_succ_lt_succ hj)
    · simp only [bestConflict, hb] at h
      rcases bestConflict_min_first_acc a cfg rest t b v bird h with hkeep | hrep
      · obtain ⟨hv, hbd, hmin⟩ := hkeep
        subst hv; subst hbd
        refine ⟨hb, ?_, 0, Nat.succ_pos _, rfl, ?_⟩
        · intro u hu
          rcases (by simpa [validTTCs, List.filterMap_cons, hb] using hu :
              u = v ∨ u ∈ validTTCs a cfg rest) with rfl | hu'
          · exact le_refl _
          · exact hmin u hu'
        · intro j hj
          exact absurd hj (Nat.not_lt_zero j)
      · obtain ⟨hvt, hest, hmin, i, hi, hgi, hprev⟩ := hrep
        refine ⟨hest, ?_, i + 1, Nat.succ_lt_succ hi, hgi, ?_⟩
        · intro u hu
          rcases (by simpa [validTTCs, List.filterMap_cons, hb] using hu :
              u = t ∨ u ∈ validTTCs a cfg rest) with rfl | hu'
          · exact hvt.le
          · exact hmin u hu'
        · intro j hj
          cases j with
          | zero =>
            show estimate_time_to_conflict a b cfg ≠ some v
            rw [hb]
            simp only [ne_eq, Option.some.injEq]
            exact hvt.ne'
          | succ j' =>
            exact hprev j' (Nat.lt_of_succ_lt_succ hj)

/-- C1: for every config with strictly descending TTC band edges
(low > medium > high > 0) and every TTC, the banding step of `evaluate_risk`
is total and assigns exactly one band, testing low, then medium, then high
with `≥` (first match wins) — so a TTC exactly at a threshold falls into the
higher band — anything below the high threshold is CRITICAL, and each band
carries its configured probability; the four cases are exhaustive. -/
theorem bandRisk_four_bands (config : RiskConfig)
    (h1 : config.ttc_medium_threshold_s < config.ttc_low_threshold_s)
    (h2 : config.ttc_high_threshold_s < config.ttc_medium_threshold_s)
    (_h3 : 0 < config.ttc_high_threshold_s) (ttc : ℝ) :
    (config.ttc_low_threshold_s ≤ ttc →
      bandRisk config ttc = (RiskLevel.LOW, config.prob_low)) ∧
    (config.ttc_medium_threshold_s ≤ ttc → ttc < config.ttc_low_threshold_s →
      bandRisk config ttc = (RiskLevel.MEDIUM, config.prob_medium)) ∧
    (config.ttc_high_threshold_s ≤ ttc → ttc < config.ttc_medium_threshold_s →
      bandRisk config ttc = (RiskLevel.HIGH, config.prob_high)) ∧
    (ttc < config.ttc_high_threshold_s →
      bandRisk config ttc = (RiskLevel.CRITICAL, config.prob_critical)) ∧
    (config.ttc_low_threshold_s ≤ ttc ∨
      (config.ttc_medium_threshold_s ≤ ttc ∧ ttc < config.ttc_low_threshold_s) ∨
      (config.ttc_high_threshold_s ≤ ttc ∧ ttc < config.ttc_medium_threshold_s) ∨
      ttc < config.ttc_high_threshold_s) := by
  unfold bandRisk
  split_ifs with ha hb hc
  · refine ⟨fun _ => rfl, ?_, ?_, ?_, Or.inl ha⟩
    · intro _ hlt; exact absurd ha (not_le.mpr hlt)
    · intro _ hlt; exfalso; linarith
    · intro hlt; exfalso; linarith
  · refine ⟨?_, fun _ _ => rfl, ?_, ?_, Or.inr (Or.inl ⟨hb, not_le.mp ha⟩)⟩
    · intro hle; exact absurd hle ha
    · intro _ hlt; exfalso; linarith
    · intro hlt; exfalso; linarith
  · refine ⟨?_, ?_, fun _ _ => rfl, ?_, Or.inr (Or.inr (Or.inl ⟨hc, not_le.mp hb⟩))⟩
    · intro hle; exact absurd hle ha
    · intro hle _; exact absurd hle hb
    · intro hlt; exfalso; linarith
  · refine ⟨?_, ?_, ?_, fun _ => rfl, Or.inr (Or.inr (Or.inr (not_le.mp hc)))⟩
    · intro hle; exact absurd hle ha
    · intro hle _; exact absurd hle hb
    · intro hle _; exact absurd hle hc

/-- C1 witness: the default config has descending band edges, and a TTC of
exactly 30 s (the medium threshold) falls into the MEDIUM band with
probability 0.30. -/
theorem bandRisk_four_bands_default :
    bandRisk RISK_CONFIG 30 = (RiskLevel.MEDIUM, 0.30) := by
  have h := bandRisk_four_bands RISK_CONFIG (by norm_num [RISK_CONFIG])
    (by norm_num [RISK_CONFIG]) (by norm_num [RISK_CONFIG]) 30
  rw [h.2.1 (by norm_num [RISK_CONFIG]) (by norm_num [RISK_CONFIG])]
  norm_num [RISK_CONFIG]

/-- C2 (amended with the clamp-bound ordering `min_ttc_s ≤ max_ttc_s`):
`estimate_time_to_conflict` returns nothing exactly when the relative speed
is below 1e-3 m/s or the distance exceeds the threshold; otherwise it
returns the distance over the relative speed clamped into
[min_ttc_s, max_ttc_s], and every returned TTC lies in that interval. -/
theorem estimate_ttc_gates_and_clamp (aircraft : AircraftState)
    (bird : BirdDetection) (config : RiskConfig)
    (hc : config.min_ttc_s ≤ config.max_ttc_s) :
    (estimate_time_to_conflict aircraft bird config = none ↔
      relative_speed aircraft bird < 1e-3 ∨
        bird_distance aircraft bird > config.distance_threshold_m) ∧
    (¬ relative_speed aircraft bird < 1e-3 →
      ¬ bird_distance aircraft bird > config.distance_threshold_m →
      estimate_time_to_conflict aircraft bird config =
        some (max config.min_ttc_s (min config.max_ttc_s
          (bird_distance aircraft bird / relative_speed aircraft bird)))) ∧
    (∀ t, estimate_time_to_conflict aircraft bird config = some t →
      config.min_ttc_s ≤ t ∧ t ≤ config.max_ttc_s) := by
  unfold estimate_time_to_conflict
  split_ifs with h1 h2
  · exact ⟨by simp [h1], fun hs _ => absurd h1 hs, by simp⟩
  · exact ⟨by simp [h2], fun _ hd => absurd h2 hd, by simp⟩
  · refine ⟨by simp [h1, h2], fun _ _ => rfl, ?_⟩
    intro t ht
    simp only [Option.some.injEq] at ht
    subst ht
    exact ⟨le_max_left _ _, max_le hc (min_le_left _ _)⟩

/-- C2 counterexample: with clamp bounds `min_ttc_s = 10 > max_ttc_s = 5`
(an ordering app.py never validates), the clamp
`max(min_ttc, min(max_ttc, raw))` returns 10, which is not ≤ `max_ttc_s`:
the claim's "no returned TTC ever lies outside [min_ttc_s, max_ttc_s]"
fails for this config. -/
theorem estimate_ttc_outside_clamp_interval :
    estimate_time_to_conflict acSlow bNear cfgBad = some 10 ∧
    ¬ ((10 : ℝ) ≤ cfgBad.max_ttc_s) := by
  constructor
  · have hs : relative_speed acSlow bNear = 1 := by
      simp only [relative_speed, acSlow, bNear]
      exact sqrt_eval _ 1 (by norm_num) (by norm_num)
    have hd : bird_distance acSlow bNear = 3 := by
      simp only [bird_distance, acSlow, bNear]
      exact sqrt_eval _ 3 (by norm_num) (by norm_num)
    rw [est_eval acSlow bNear cfgBad 1 3 hs hd (by norm_num) (by norm_num [cfgBad])]
    rw [show ((3 : ℝ) / 1) = 3 by norm_num]
    rw [min_eq_right (by norm_num [cfgBad]), max_eq_left (by norm_num [cfgBad])]
    norm_num [cfgBad]
  · norm_num [cfgBad]

/-- C2 witness: under the default config (clamp 5 ≤ 120) every TTC returned
for the scenario-1 inputs lies in the clamp interval; concretely the value
returned is 8. -/
theorem estimate_ttc_gates_and_clamp_default :
    RISK_CONFIG.min_ttc_s ≤ RISK_CONFIG.max_ttc_s ∧
    (∀ t, estimate_time_to_conflict ac0 bA RISK_CONFIG = some t →
      RISK_CONFIG.min_ttc_s ≤ t ∧ t ≤ RISK_CONFIG.max_ttc_s) ∧
    estimate_time_to_conflict ac0 bA RISK_CONFIG = some 8 :=
  ⟨by norm_num [RISK_CONFIG],
   (estimate_ttc_gates_and_clamp ac0 bA RISK_CONFIG (by norm_num [RISK_CONFIG])).2.2,
   est_ac0_bA⟩

/-- C4: with an empty bird list `evaluate_risk` is total and returns the
fully formed NONE assessment: probability 0.0, no TTC, no threat id, the
fixed rationale, and all audit fields populated. -/
theorem evaluate_risk_no_birds (r : Renderers) (d : String) (a : AircraftState)
    (config : RiskConfig) :
    evaluate_risk r d ⟨a, []⟩ config =
      { risk_level := RiskLevel.NONE
        collision_probability := 0.0
        time_to_conflict_s := none
        most_threatening_bird_id := none
        rationale := "No birds in current surveillance volume."
        decision_id := d
        input_hash := compute_input_hash r ⟨a, []⟩
        engine_version := ENGINE_VERSION
        config_version := config.version } := rfl

/-- C6: `plan_action` is a pure total function of `risk_level` only, with
the table NONE/LOW ↦ MAINTAIN without approval, MEDIUM ↦ SLOW_DOWN,
HIGH ↦ TURN_RIGHT, CRITICAL ↦ ABORT_MISSION all requiring approval, and
the urgency always equal to the input risk level. -/
theorem plan_action_table (a b : RiskAssessment)
    (hab : a.risk_level = b.risk_level) :
    plan_action a = plan_action b ∧
    (plan_action a).urgency = a.risk_level ∧
    ((a.risk_level = RiskLevel.NONE ∨ a.risk_level = RiskLevel.LOW) →
      (plan_action a).action = ActionType.MAINTAIN ∧
        (plan_action a).requires_human_approval = false) ∧
    (a.risk_level = RiskLevel.MEDIUM →
      (plan_action a).action = ActionType.SLOW_DOWN ∧
        (plan_action a).requires_human_approval = true) ∧
    (a.risk_level = RiskLevel.HIGH →
      (plan_action a).action = ActionType.TURN_RIGHT ∧
        (plan_action a).requires_human_approval = true) ∧
    (a.risk_level = RiskLevel.CRITICAL →
      (plan_action a).action = ActionType.ABORT_MISSION ∧
        (plan_action a).requires_human_approval = true) := by
  cases h : a.risk_level <;>
    rw [h] at hab <;>
    simp [plan_action, h, ← hab]

/-- C6 witness: on a concrete CRITICAL assessment the planner recommends
ABORT_MISSION with mandatory human approval and CRITICAL urgency. -/
theorem plan_action_table_critical :
    (plan_action assess0).action = ActionType.ABORT_MISSION ∧
    (plan_action assess0).requires_human_approval = true ∧
    (plan_action assess0).urgency = RiskLevel.CRITICAL := by
  have h := plan_action_table assess0 assess0 rfl
  exact ⟨(h.2.2.2.2.2 rfl).1, (h.2.2.2.2.2 rfl).2, h.2.1⟩

/-- C8: `compute_input_hash` is deterministic and pure: equal aircraft and
equal bird lists (same order) always give the identical hash string, for
every rendering/digest environment, because the hash is a function of the
canonical key-sorted serialization alone. -/
theorem compute_input_hash_deterministic (r : Renderers) (q1 q2 : RiskQuery)
    (ha : q1.aircraft = q2.aircraft) (hb : q1.birds = q2.birds) :
    compute_input_hash r q1 = compute_input_hash r q2 := by
  obtain ⟨a1, bs1⟩ := q1
  obtain ⟨a2, bs2⟩ := q2
  cases ha
  cases hb
  rfl

/-- C8 witness: concrete instance at the scenario-1 query. -/
theorem compute_input_hash_deterministic_concrete :
    compute_input_hash r0 ⟨ac0, [bA]⟩ = compute_input_hash r0 ⟨ac0, [bA]⟩ :=
  compute_input_hash_deterministic r0 ⟨ac0, [bA]⟩ ⟨ac0, [bA]⟩ rfl rfl

/-- C10: in every `evaluate_risk` result the TTC is present exactly when the
most-threatening bird id is present, and both are absent exactly when no
bird produced a valid TTC. -/
theorem ttc_present_iff_threat_present (r : Renderers) (d : String)
    (q : RiskQuery) (config : RiskConfig) :
    ((evaluate_risk r d q config).time_to_conflict_s.isSome =
      (evaluate_risk r d q config).most_threatening_bird_id.isSome) ∧
    ((evaluate_risk r d q config).time_to_conflict_s = none ↔
      validTTCs q.aircraft config q.birds = []) := by
  obtain ⟨a, bs⟩ := q
  cases bs with
  | nil =>
    constructor
    · rfl
    · simp [evaluate_risk, validTTCs]
  | cons b rest =>
    rcases hbc : bestConflict a config (b :: rest) none with _ | ⟨v, bird⟩
    · have hvt := (bestConflict_eq_none a config (b :: rest) none).mp hbc
      constructor
      · simp [evaluate_risk, hbc]
      · simp [evaluate_risk, hbc, hvt.2]
    · have hne : validTTCs a config (b :: rest) ≠ [] := by
        intro hemp
        have hcontra : bestConflict a config (b :: rest) none = none :=
          (bestConflict_eq_none a config (b :: rest) none).mpr ⟨rfl, hemp⟩
        rw [hcontra] at hbc
        exact Option.noConfusion hbc
      constructor
      · simp [evaluate_risk, hbc]
      · simp [evaluate_risk, hbc, hne]

/-- C5: for a non-empty bird list in which every bird is filtered out by the
distance/speed gates, `evaluate_risk` is total and returns the presence-only
LOW assessment: probability `prob_presence_only`, no TTC, no threat id. -/
theorem evaluate_risk_presence_only (r : Renderers) (d : String)
    (a : AircraftState) (bs : List BirdDetection) (config : RiskConfig)
    (hne : bs ≠ [])
    (hall : ∀ b ∈ bs, estimate_time_to_conflict a b config = none) :
    evaluate_risk r d ⟨a, bs⟩ config =
      { risk_level := RiskLevel.LOW
        collision_probability := config.prob_presence_only
        time_to_conflict_s := none
        most_threatening_bird_id := none
        rationale := "Birds present but no projected near-term conflicts within configured thresholds."
        decision_id := d
        input_hash := compute_input_hash r ⟨a, bs⟩
        engine_version := ENGINE_VERSION
        config_version := config.version } := by
  cases bs with
  | nil => exact absurd rfl hne
  | cons b rest =>
    have hbc : bestConflict a config (b :: rest) none = none :=
      bestConflict_all_none a config (b :: rest) hall none
    simp [evaluate_risk, hbc]

/-- C5 witness: end-to-end scenario 2 — one stationary bird 2000 m away
(beyond the 500 m default threshold) yields the presence-only LOW result. -/
theorem evaluate_risk_presence_only_far_bird :
    evaluate_risk r0 "d2" ⟨ac0, [b2k]⟩ RISK_CONFIG =
      { risk_level := RiskLevel.LOW
        collision_probability := RISK_CONFIG.prob_presence_only
        time_to_conflict_s := none
        most_threatening_bird_id := none
        rationale := "Birds present but no projected near-term conflicts within configured thresholds."
        decision_id := "d2"
        input_hash := compute_input_hash r0 ⟨ac0, [b2k]⟩
        engine_version := ENGINE_VERSION
        config_version := RISK_CONFIG.version } := by
  refine evaluate_risk_presence_only r0 "d2" ac0 [b2k] RISK_CONFIG (by simp) ?_
  intro b hb
  simp only [List.mem_singleton] at hb
  subst hb
  exact est_ac0_b2k

/-- The band of the scenario-1 TTC: 8 s is below the high threshold (10 s),
so the band is CRITICAL with probability 0.80. -/
theorem bandRisk_at_8 : bandRisk RISK_CONFIG 8 = (RiskLevel.CRITICAL, 0.80) := by
  unfold bandRisk
  norm_num [RISK_CONFIG]

/-- C3: end-to-end scenario 1 under the default config — aircraft at
(0,0,100) with velocity (50,0,0), one stationary bird at (400,0,100): the
distance is 400 m (under the 500 m threshold), the relative speed 50 m/s,
the TTC 8 s (unchanged by the [5,120] clamp), the risk CRITICAL with
probability 0.80, and the planner recommends ABORT_MISSION with mandatory
human approval. -/
theorem end_to_end_critical_abort :
    bird_distance ac0 bA = 400 ∧
    (400 : ℝ) < RISK_CONFIG.distance_threshold_m ∧
    relative_speed ac0 bA = 50 ∧
    estimate_time_to_conflict ac0 bA RISK_CONFIG = some 8 ∧
    (evaluate_risk r0 "d1" ⟨ac0, [bA]⟩ RISK_CONFIG).risk_level = RiskLevel.CRITICAL ∧
    (evaluate_risk r0 "d1" ⟨ac0, [bA]⟩ RISK_CONFIG).collision_probability = 0.80 ∧
    (evaluate_risk r0 "d1" ⟨ac0, [bA]⟩ RISK_CONFIG).time_to_conflict_s = some 8 ∧
    (plan_action (evaluate_risk r0 "d1" ⟨ac0, [bA]⟩ RISK_CONFIG)).action =
      ActionType.ABORT_MISSION ∧
    (plan_action (evaluate_risk r0 "d1" ⟨ac0, [bA]⟩ RISK_CONFIG)).requires_human_approval =
      true := by
  have hbc : bestConflict ac0 RISK_CONFIG [bA] none = some (8, bA) := by
    simp [bestConflict, est_ac0_bA]
  refine ⟨dist_ac0_bA, by norm_num [RISK_CONFIG], speed_ac0_bA, est_ac0_bA,
    ?_, ?_, ?_, ?_, ?_⟩
  · simp [evaluate_risk, hbc, bandRisk_at_8]
  · simp [evaluate_risk, hbc, bandRisk_at_8]
  · simp [evaluate_risk, hbc]
  · simp [plan_action, evaluate_risk, hbc, bandRisk_at_8]
  · simp [plan_action, evaluate_risk, hbc, bandRisk_at_8]

/-- C7: whenever some bird yields a valid TTC, `evaluate_risk` reports the
TTC-minimal bird: the reported id belongs to a bird whose valid TTC is a
lower bound of all valid TTCs, and no earlier bird in iteration order
attains that TTC (ties broken by first-seen). -/
theorem most_threatening_is_first_min (r : Renderers) (d : String)
    (a : AircraftState) (bs : List BirdDetection) (config : RiskConfig)
    (v : ℝ) (bird : BirdDetection)
    (h : bestConflict a config bs none = some (v, bird)) :
    (evaluate_risk r d ⟨a, bs⟩ config).most_threatening_bird_id = some bird.id ∧
    (evaluate_risk r d ⟨a, bs⟩ config).time_to_conflict_s = some v ∧
    estimate_time_to_conflict a bird config = some v ∧
    (∀ u ∈ validTTCs a config bs, v ≤ u) ∧
    ∃ (i : ℕ) (hi : i < bs.length), bs.get ⟨i, hi⟩ = bird ∧
      ∀ (j : ℕ) (hj : j < i),
        estimate_time_to_conflict a (bs.get ⟨j, hj.trans hi⟩) config ≠ some v := by
  obtain ⟨hest, hmin, hfirst⟩ := bestConflict_min_first a config bs v bird h
  cases bs with
  | nil => simp [bestConflict] at h
  | cons b rest =>
    exact ⟨by simp [evaluate_risk, h], by simp [evaluate_risk, h], hest, hmin, hfirst⟩

/-- C7 witness: two birds tie for the minimum TTC (8 s each); the first one
in iteration order (id "A") is selected. -/
theorem most_threatening_is_first_min_tie :
    (evaluate_risk r0 "d3" ⟨ac0, [bA, bB]⟩ RISK_CONFIG).most_threatening_bird_id =
      some bA.id ∧
    (evaluate_risk r0 "d3" ⟨ac0, [bA, bB]⟩ RISK_CONFIG).time_to_conflict_s = some 8 := by
  have hbc : bestConflict ac0 RISK_CONFIG [bA, bB] none = some (8, bA) := by
    simp [bestConflict, est_ac0_bA, est_ac0_bB]
  have h := most_threatening_is_first_min r0 "d3" ac0 [bA, bB] RISK_CONFIG 8 bA hbc
  exact ⟨h.1, h.2.1⟩

/-- C9 (amended): permuting the bird list leaves the risk level, the
collision probability and the TTC of `evaluate_risk` unchanged (even under a
different rendering environment and decision id); the most-threatening id
can switch among birds tied for the minimum TTC, and the input hash follows
the serialization order, so the full record is not invariant. -/
theorem evaluate_risk_perm_band_invariant (r1 r2 : Renderers) (d1 d2 : String)
    (a : AircraftState) (bs1 bs2 : List BirdDetection) (config : RiskConfig)
    (hperm : bs1.Perm bs2) :
    (evaluate_risk r1 d1 ⟨a, bs1⟩ config).risk_level =
      (evaluate_risk r2 d2 ⟨a, bs2⟩ config).risk_level ∧
    (evaluate_risk r1 d1 ⟨a, bs1⟩ config).collision_probability =
      (evaluate_risk r2 d2 ⟨a, bs2⟩ config).collision_probability ∧
    (evaluate_risk r1 d1 ⟨a, bs1⟩ config).time_to_conflict_s =
      (evaluate_risk r2 d2 ⟨a, bs2⟩ config).time_to_conflict_s := by
  have hvperm : (validTTCs a config bs1).Perm (validTTCs a config bs2) :=
    hperm.filterMap _
  cases bs1 with
  | nil =>
    have hb2 : bs2 = [] := hperm.symm.eq_nil
    subst hb2
    exact ⟨rfl, rfl, rfl⟩
  | cons b1 rest1 =>
    cases bs2 with
    | nil => exact absurd hperm.eq_nil (by simp)
    | cons b2 rest2 =>
      rcases h1 : bestConflict a config (b1 :: rest1) none with _ | ⟨v1, bird1⟩
      · rcases h2 : bestConflict a config (b2 :: rest2) none with _ | ⟨v2, bird2⟩
        · simp [evaluate_risk, h1, h2]
        · exfalso
          have he1 := ((bestConflict_eq_none a config (b1 :: rest1) none).mp h1).2
          have he2 : validTTCs a config (b2 :: rest2) = [] := by
            rw [he1] at hvperm
            exact hvperm.symm.eq_nil
          have hn2 := (bestConflict_eq_none a config (b2 :: rest2) none).mpr ⟨rfl, he2⟩
          rw [hn2] at h2
          exact Option.noConfusion h2
      · rcases h2 : bestConflict a config (b2 :: rest2) none with _ | ⟨v2, bird2⟩
        · exfalso
          have he2 := ((bestConflict_eq_none a config (b2 :: rest2) none).mp h2).2
          have he1 : validTTCs a config (b1 :: rest1) = [] := by
            rw [he2] at hvperm
            exact hvperm.eq_nil
          have hn1 := (bestConflict_eq_none a config (b1 :: rest1) none).mpr ⟨rfl, he1⟩
          rw [hn1] at h1
          exact Option.noConfusion h1
        · obtain ⟨hest1, hmin1, i1, hi1, hg1, -⟩ :=
            bestConflict_min_first a config (b1 :: rest1) v1 bird1 h1
          obtain ⟨hest2, hmin2, i2, hi2, hg2, -⟩ :=
            bestConflict_min_first a config (b2 :: rest2) v2 bird2 h2
          have hmem1 : v1 ∈ validTTCs a config (b1 :: rest1) := by
            simp only [validTTCs, List.mem_filterMap]
            exact ⟨bird1, by rw [← hg1]; exact List.get_mem _ _ _, hest1⟩
          have hmem2 : v2 ∈ validTTCs a config (b2 :: rest2) := by
            simp only [validTTCs, List.mem_filterMap]
            exact ⟨bird2, by rw [← hg2]; exact List.get_mem _ _ _, hest2⟩
          have hv : v1 = v2 :=
            le_antisymm (hmin1 v2 (hvperm.mem_iff.mpr hmem2))
              (hmin2 v1 (hvperm.mem_iff.mp hmem1))
          subst hv
          simp [evaluate_risk, h1, h2]

/-- C9 witness: the band-relevant fields are unchanged when the two tied
birds are swapped. -/
theorem evaluate_risk_perm_band_invariant_swap :
    (evaluate_risk r0 "dA" ⟨ac0, [bA, bB]⟩ RISK_CONFIG).risk_level =
      (evaluate_risk r0 "dB" ⟨ac0, [bB, bA]⟩ RISK_CONFIG).risk_level ∧
    (evaluate_risk r0 "dA" ⟨ac0, [bA, bB]⟩ RISK_CONFIG).collision_probability =
      (evaluate_risk r0 "dB" ⟨ac0, [bB, bA]⟩ RISK_CONFIG).collision_probability ∧
    (evaluate_risk r0 "dA" ⟨ac0, [bA, bB]⟩ RISK_CONFIG).time_to_conflict_s =
      (evaluate_risk r0 "dB" ⟨ac0, [bB, bA]⟩ RISK_CONFIG).time_to_conflict_s :=
  evaluate_risk_perm_band_invariant r0 r0 "dA" "dB" ac0 [bA, bB] [bB, bA]
    RISK_CONFIG (List.Perm.swap bB bA [])

/-- C9 counterexample: permuting two birds that tie for the minimum TTC
changes the output of `evaluate_risk`: the reported most-threatening id
follows iteration order ("A" first versus "B" first), so the output is not
invariant under permutations of the bird list. -/
theorem evaluate_risk_perm_changes_output :
    ([bA, bB].Perm [bB, bA]) ∧
    (evaluate_risk r0 "d" ⟨ac0, [bA, bB]⟩ RISK_CONFIG).most_threatening_bird_id =
      some "A" ∧
    (evaluate_risk r0 "d" ⟨ac0, [bB, bA]⟩ RISK_CONFIG).most_threatening_bird_id =
      some "B" ∧
    evaluate_risk r0 "d" ⟨ac0, [bA, bB]⟩ RISK_CONFIG ≠
      evaluate_risk r0 "d" ⟨ac0, [bB, bA]⟩ RISK_CONFIG := by
  have hbc1 : bestConflict ac0 RISK_CONFIG [bA, bB] none = some (8, bA) := by
    simp [bestConflict, est_ac0_bA, est_ac0_bB]
  have hbc2 : bestConflict ac0 RISK_CONFIG [bB, bA] none = some (8, bB) := by
    simp [bestConflict, est_ac0_bA, est_ac0_bB]
  have hid1a : (evaluate_risk r0 "d" ⟨ac0, [bA, bB]⟩ RISK_CONFIG).most_threatening_bird_id =
      some bA.id := by
    simp [evaluate_risk, hbc1]
  have hid2a : (evaluate_risk r0 "d" ⟨ac0, [bB, bA]⟩ RISK_CONFIG).most_threatening_bird_id =
      some bB.id := by
    simp [evaluate_risk, hbc2]
  have hid1 : (evaluate_risk r0 "d" ⟨ac0, [bA, bB]⟩ RISK_CONFIG).most_threatening_bird_id =
      some "A" := by rw [hid1a]; rfl
  have hid2 : (evaluate_risk r0 "d" ⟨ac0, [bB, bA]⟩ RISK_CONFIG).most_threatening_bird_id =
      some "B" := by rw [hid2a]; rfl
  refine ⟨List.Perm.swap bB bA [], hid1, hid2, ?_⟩
  intro heq
  rw [heq, hid2] at hid1
  exact absurd hid1 (by decide)
